import Mathlib

/-!
Shallow embedding of the seat-booking workflow ("BookSeat") of the webinar
repository: entities (User, Participation, Webinar), the in-memory
adapters and fakes used as collaborator ports, the error taxonomy, and the
workflow `execute` with its organizer-notification helper
`sendEmailToOrganizer`. State is passed explicitly: a `SystemState` holds
the participation store, the user store, the webinar store, and the log of
sent emails. Timestamps are integers in milliseconds.
-/

namespace BookSeatSpec

/-- A user: id, contact email (an empty string models a missing address,
matching the falsy check on `organizer?.props.email`), password. -/
structure User where
  id : String
  email : String
  password : String
deriving DecidableEq

/-- A participation record links a user id to a webinar id. -/
structure Participation where
  userId : String
  webinarId : String
deriving DecidableEq

/-- Webinar entity attributes (dates in milliseconds since the epoch). -/
structure Webinar where
  id : String
  organizerId : String
  title : String
  startDate : Int
  endDate : Int
  seats : Int
deriving DecidableEq

/-- An email accepted for sending by the mailer port. `toAddr` renders the
source field `to`, which is a reserved word in Lean. -/
structure Email where
  toAddr : String
  subject : String
  body : String
deriving DecidableEq

/-- The closed set of errors the workflow can raise. The first six mirror
the exception classes of the repository; `mailerSendFailed` stands for an
arbitrary rejection propagated from the notifier port's `send`. -/
inductive BookError where
  | webinarNotFound
  | userIsAlreadyRegistered
  | webinarDatesTooSoon
  | webinarTooManySeats
  | webinarNotEnoughSeats
  | emailNotFound
  | mailerSendFailed
deriving DecidableEq

/-- The success response shape of `execute`. -/
structure Response where
  success : Bool
  message : String
deriving DecidableEq

/-- The explicit state threaded through the workflow: the three stores and
the log of emails the mailer has accepted. -/
structure SystemState where
  participations : List Participation
  users : List User
  webinars : List Webinar
  emails : List Email
deriving DecidableEq

/-- `FakeParticipationRepository.findByWebinarId`: the participations whose
webinar id matches. -/
def findByWebinarId (st : SystemState) (webinarId : String) : List Participation :=
  st.participations.filter (fun p => p.webinarId == webinarId)

/-- `InMemoryWebinarRepository.findById`: resolves a webinar by id, failing
with a webinar-not-found error when absent. -/
def webinarFindById (st : SystemState) (webinarId : String) : Except BookError Webinar :=
  match st.webinars.find? (fun w => w.id == webinarId) with
  | some w => Except.ok w
  | none => Except.error BookError.webinarNotFound

/-- `FakeUserRepository.findById`: resolves a user by id; absence is a
valid outcome (`null` in the source), not an error. -/
def userFindById (st : SystemState) (userId : String) : Option User :=
  st.users.find? (fun u => u.id == userId)

/-- Modelled from the spec: the Webinar entity file is not under src, only
its callers are. Spec 4.1: too-soon-to-start(now) is true when the gap
between now and the start time is strictly less than 3 days; a gap of
exactly 3 days is not too soon. Times are in milliseconds. -/
def Webinar.isTooSoon (w : Webinar) (now : Int) : Bool :=
  w.startDate - now < 3 * 24 * 60 * 60 * 1000

/-- Modelled from the spec: the Webinar entity file is not under src.
Spec 4.1: capacity-too-high is true when seat capacity exceeds 1000. -/
def Webinar.hasTooManySeats (w : Webinar) : Bool :=
  w.seats > 1000

/-- Modelled from the spec: the Webinar entity file is not under src.
Spec 4.1: capacity-too-low is true when seat capacity is less than 1. -/
def Webinar.hasNotEnoughSeats (w : Webinar) : Bool :=
  w.seats < 1

/-- A mailer port: given the current log of sent emails and the email to
send, either accepts it (returning the new log) or fails. -/
def MailerPort : Type := List Email → Email → Option (List Email)

/-- `FakeMailer.send` from the tests: always accepts and appends. -/
def fakeMailerSend : MailerPort := fun log e => some (log ++ [e])

/-- A notifier whose send always fails (delivery cannot be attempted). -/
def failingMailerSend : MailerPort := fun _ _ => none

/-- `BookSeat.sendEmailToOrganizer`: resolves the organizer by the
webinar's organizer id; if the organizer exists and has a non-empty email,
sends the notification through the mailer; otherwise raises
`emailNotFound`. Returns the resulting state and the raised error, if
any. -/
def sendEmailToOrganizer (mailer : MailerPort) (st : SystemState) (w : Webinar)
    (u : User) : SystemState × Option BookError :=
  match userFindById st w.organizerId with
  | some organizer =>
    if organizer.email = "" then
      (st, some BookError.emailNotFound)
    else
      match mailer st.emails
        { toAddr := organizer.email, subject := "New participant",
          body := "New participant for webinar " ++ w.title ++ ": " ++ u.email } with
      | some log => ({ st with emails := log }, none)
      | none => (st, some BookError.mailerSendFailed)
  | none => (st, some BookError.emailNotFound)

/-- `BookSeat.execute`: loads the participations and the webinar, runs the
duplicate, lead-time and capacity checks in order, persists the new
participation, notifies the organizer, and returns the success response.
Returns the resulting state together with the outcome; on an error the
state reflects every effect performed before the error was raised. -/
def execute (mailer : MailerPort) (st : SystemState) (now : Int)
    (webinarId : String) (user : User) : SystemState × Except BookError Response :=
  let participation := findByWebinarId st webinarId
  match webinarFindById st webinarId with
  | Except.error e => (st, Except.error e)
  | Except.ok webinar =>
    if participation.any (fun p => p.userId == user.id) then
      (st, Except.error BookError.userIsAlreadyRegistered)
    else if webinar.isTooSoon now then
      (st, Except.error BookError.webinarDatesTooSoon)
    else if webinar.hasTooManySeats then
      (st, Except.error BookError.webinarTooManySeats)
    else if webinar.hasNotEnoughSeats then
      (st, Except.error BookError.webinarNotEnoughSeats)
    else
      let st1 : SystemState :=
        { st with participations :=
            st.participations ++ [{ userId := user.id, webinarId := webinarId }] }
      match sendEmailToOrganizer mailer st1 webinar user with
      | (st2, none) =>
        (st2, Except.ok { success := true, message := "User registered successfully" })
      | (st2, some e) => (st2, Except.error e)

/-- Number of persisted registrations for a given (user id, webinar id)
pair. -/
def countRegistrations (st : SystemState) (userId webinarId : String) : Nat :=
  (st.participations.filter
    (fun p => p.userId == userId && p.webinarId == webinarId)).length

/-- The organizer resolved from the webinar's organizer id is absent, or
present with an empty (unusable) contact address: exactly the situations
in which the falsy check on the organizer's email fails. -/
def organizerContactMissing (st : SystemState) (w : Webinar) : Bool :=
  match userFindById st w.organizerId with
  | some organizer => organizer.email == ""
  | none => true

/-- The webinar of the happy-path test: starts in 4 days (times relative
to a reference now of 0, in milliseconds), 100 seats. -/
def webinar1 : Webinar :=
  { id := "webinar1", organizerId := "organizer1", title := "Webinar Test",
    startDate := 345600000, endDate := 432000000, seats := 100 }

/-- The registrant of the tests. -/
def user1 : User :=
  { id := "user1", email := "user@example.com", password := "password" }

/-- The organizer of the tests, with a usable contact address. -/
def organizer1 : User :=
  { id := "organizer1", email := "organizer@example.com", password := "password" }

/-- Happy-path state: no registrations yet, the organizer known, the
webinar present, no emails sent. -/
def baseState : SystemState :=
  { participations := [], users := [organizer1], webinars := [webinar1], emails := [] }

/-- State in which user1 is already registered for webinar1. -/
def dupState : SystemState :=
  { participations := [{ userId := "user1", webinarId := "webinar1" }],
    users := [organizer1], webinars := [webinar1], emails := [] }

/-- State holding a registration for a webinar id that resolves to no
stored webinar. -/
def ghostState : SystemState :=
  { participations := [{ userId := "user1", webinarId := "webinar1" }],
    users := [organizer1], webinars := [], emails := [] }

/-- The empty state: nothing stored at all. -/
def emptyState : SystemState :=
  { participations := [], users := [], webinars := [], emails := [] }

/-- A webinar starting 1 millisecond short of the 3-day lead time. -/
def webinarSoon : Webinar :=
  { id := "webinar1", organizerId := "organizer1", title := "Webinar Test",
    startDate := 259199999, endDate := 432000000, seats := 100 }

/-- State holding `webinarSoon`. -/
def soonState : SystemState :=
  { participations := [], users := [organizer1], webinars := [webinarSoon], emails := [] }

/-- A webinar starting at exactly the 3-day lead-time boundary. -/
def webinarBoundary : Webinar :=
  { id := "webinar1", organizerId := "organizer1", title := "Webinar Test",
    startDate := 259200000, endDate := 432000000, seats := 100 }

/-- State holding `webinarBoundary`. -/
def boundaryState : SystemState :=
  { participations := [], users := [organizer1], webinars := [webinarBoundary], emails := [] }

/-- State in which the webinar's organizer id resolves to no user. -/
def noOrgState : SystemState :=
  { participations := [], users := [], webinars := [webinar1], emails := [] }

/-- An organizer whose contact address is empty. -/
def noEmailOrganizer : User :=
  { id := "organizer1", email := "", password := "password" }

/-- State in which the organizer exists but has no usable contact
address. -/
def noEmailState : SystemState :=
  { participations := [], users := [noEmailOrganizer], webinars := [webinar1], emails := [] }

/-- Replace the seat capacity of `webinar1`. -/
def webinarWithSeats (n : Int) : Webinar :=
  { id := "webinar1", organizerId := "organizer1", title := "Webinar Test",
    startDate := 345600000, endDate := 432000000, seats := n }

/-- Happy-path state whose webinar has the given seat capacity. -/
def stateWithSeats (n : Int) : SystemState :=
  { participations := [], users := [organizer1], webinars := [webinarWithSeats n],
    emails := [] }

/-- A webinar with a single seat. -/
def fullWebinar : Webinar := webinarWithSeats 1

/-- State in which `fullWebinar` already has as many registrations as its
configured capacity (one seat, one registration by another user). -/
def fullState : SystemState :=
  { participations := [{ userId := "user2", webinarId := "webinar1" }],
    users := [organizer1], webinars := [fullWebinar], emails := [] }

/-- A webinar violating both the lead-time rule (starts in 1 day) and the
capacity-too-high rule (2000 seats). -/
def multiFaultWebinar : Webinar :=
  { id := "webinar1", organizerId := "organizer1", title := "Webinar Test",
    startDate := 86400000, endDate := 432000000, seats := 2000 }

/-- State violating several rules at once: user1 already registered, the
webinar too soon and with too many seats. -/
def multiFaultState : SystemState :=
  { participations := [{ userId := "user1", webinarId := "webinar1" }],
    users := [organizer1], webinars := [multiFaultWebinar], emails := [] }

/-- The organizer-notification step never touches the participation
store. -/
lemma sendEmail_participations (mailer : MailerPort) (st : SystemState)
    (w : Webinar) (u : User) :
    (sendEmailToOrganizer mailer st w u).1.participations = st.participations := by
  unfold sendEmailToOrganizer
  split
  · split
    · rfl
    · split
      · rfl
      · rfl
  · rfl

/-- Any error raised by the organizer-notification step is either the
missing-contact error or a notifier rejection. -/
lemma sendEmail_error_cases (mailer : MailerPort) (st : SystemState)
    (w : Webinar) (u : User) (e : BookError)
    (h : (sendEmailToOrganizer mailer st w u).2 = some e) :
    e = BookError.emailNotFound ∨ e = BookError.mailerSendFailed := by
  unfold sendEmailToOrganizer at h
  revert h
  split
  · split
    · intro h
      exact Or.inl (Option.some.inj h).symm
    · split
      · intro h
        exact absurd h (by simp)
      · intro h
        exact Or.inr (Option.some.inj h).symm
  · intro h
    exact Or.inl (Option.some.inj h).symm

/-- When the organizer contact is missing, the notification step raises
the missing-contact error and leaves the state untouched, whatever the
mailer. -/
lemma sendEmail_contact_missing (mailer : MailerPort) (st : SystemState)
    (w : Webinar) (u : User) (h : organizerContactMissing st w = true) :
    sendEmailToOrganizer mailer st w u = (st, some BookError.emailNotFound) := by
  unfold organizerContactMissing at h
  unfold sendEmailToOrganizer
  revert h
  split
  · intro h
    simp at h
    simp [h]
  · intro _
    rfl

/-- Once the webinar is found and the duplicate, lead-time and capacity
checks pass, `execute` persists the registration and hands over to the
notification step. -/
lemma execute_validated (mailer : MailerPort) (st : SystemState) (now : Int)
    (webinarId : String) (user : User) (w : Webinar)
    (hfind : webinarFindById st webinarId = Except.ok w)
    (hdup : (findByWebinarId st webinarId).any (fun p => p.userId == user.id) = false)
    (hsoon : w.isTooSoon now = false)
    (hhigh : w.hasTooManySeats = false)
    (hlow : w.hasNotEnoughSeats = false) :
    execute mailer st now webinarId user =
      (match sendEmailToOrganizer mailer
          { st with participations :=
              st.participations ++ [{ userId := user.id, webinarId := webinarId }] }
          w user with
       | (st2, none) =>
         (st2, Except.ok { success := true, message := "User registered successfully" })
       | (st2, some e) => (st2, Except.error e)) := by
  unfold execute
  rw [hfind]
  simp [hdup, hsoon, hhigh, hlow]

/-- If no participation stored for the webinar carries the user's id,
then the (user, webinar) pair has no stored registration at all. -/
lemma count_zero_of_not_any (st : SystemState) (webinarId : String) (u : User)
    (h : (findByWebinarId st webinarId).any (fun p => p.userId == u.id) = false) :
    countRegistrations st u.id webinarId = 0 := by
  unfold findByWebinarId at h
  unfold countRegistrations
  simp only [List.any_eq_false, List.mem_filter] at h
  simp only [List.length_eq_zero, List.filter_eq_nil_iff]
  intro p hp hmatch
  simp only [Bool.and_eq_true, beq_iff_eq] at hmatch
  exact (h p ⟨hp, by simp [hmatch.2]⟩) (by simp [hmatch.1])

/-- `execute` propagates a failing webinar lookup unchanged. -/
lemma execute_notFound (mailer : MailerPort) (st : SystemState) (now : Int)
    (webinarId : String) (user : User) (e : BookError)
    (hfind : webinarFindById st webinarId = Except.error e) :
    execute mailer st now webinarId user = (st, Except.error e) := by
  unfold execute
  rw [hfind]

/-- `execute` raises already-registered as soon as an existing
participation for the webinar carries the user's id. -/
lemma execute_dup (mailer : MailerPort) (st : SystemState) (now : Int)
    (webinarId : String) (user : User) (w : Webinar)
    (hfind : webinarFindById st webinarId = Except.ok w)
    (hdup : (findByWebinarId st webinarId).any (fun p => p.userId == user.id) = true) :
    execute mailer st now webinarId user =
      (st, Except.error BookError.userIsAlreadyRegistered) := by
  unfold execute
  rw [hfind]
  simp [hdup]

/-- After the duplicate check passes, a too-soon webinar fails the
booking with the lead-time error. -/
lemma execute_tooSoon (mailer : MailerPort) (st : SystemState) (now : Int)
    (webinarId : String) (user : User) (w : Webinar)
    (hfind : webinarFindById st webinarId = Except.ok w)
    (hdup : (findByWebinarId st webinarId).any (fun p => p.userId == user.id) = false)
    (hsoon : w.isTooSoon now = true) :
    execute mailer st now webinarId user =
      (st, Except.error BookError.webinarDatesTooSoon) := by
  unfold execute
  rw [hfind]
  simp [hdup, hsoon]

/-- After the duplicate and lead-time checks pass, an over-capacity
webinar fails the booking with the too-many-seats error. -/
lemma execute_tooMany (mailer : MailerPort) (st : SystemState) (now : Int)
    (webinarId : String) (user : User) (w : Webinar)
    (hfind : webinarFindById st webinarId = Except.ok w)
    (hdup : (findByWebinarId st webinarId).any (fun p => p.userId == user.id) = false)
    (hsoon : w.isTooSoon now = false)
    (hhigh : w.hasTooManySeats = true) :
    execute mailer st now webinarId user =
      (st, Except.error BookError.webinarTooManySeats) := by
  unfold execute
  rw [hfind]
  simp [hdup, hsoon, hhigh]

/-- After the duplicate, lead-time and too-many-seats checks pass, an
under-capacity webinar fails the booking with the not-enough-seats
error. -/
lemma execute_notEnough (mailer : MailerPort) (st : SystemState) (now : Int)
    (webinarId : String) (user : User) (w : Webinar)
    (hfind : webinarFindById st webinarId = Except.ok w)
    (hdup : (findByWebinarId st webinarId).any (fun p => p.userId == user.id) = false)
    (hsoon : w.isTooSoon now = false)
    (hhigh : w.hasTooManySeats = false)
    (hlow : w.hasNotEnoughSeats = true) :
    execute mailer st now webinarId user =
      (st, Except.error BookError.webinarNotEnoughSeats) := by
  unfold execute
  rw [hfind]
  simp [hdup, hsoon, hhigh, hlow]

/-- Once every pre-persist validation passes, the only errors `execute`
can still raise come from the notification step. -/
lemma execute_error_after_checks (mailer : MailerPort) (st : SystemState) (now : Int)
    (webinarId : String) (user : User) (w : Webinar)
    (hfind : webinarFindById st webinarId = Except.ok w)
    (hdup : (findByWebinarId st webinarId).any (fun p => p.userId == user.id) = false)
    (hsoon : w.isTooSoon now = false)
    (hhigh : w.hasTooManySeats = false)
    (hlow : w.hasNotEnoughSeats = false)
    (e : BookError)
    (herr : (execute mailer st now webinarId user).2 = Except.error e) :
    e = BookError.emailNotFound ∨ e = BookError.mailerSendFailed := by
  have hrun := execute_validated mailer st now webinarId user w hfind hdup hsoon hhigh hlow
  rw [hrun] at herr
  rcases hs : sendEmailToOrganizer mailer
      { st with participations :=
          st.participations ++ [{ userId := user.id, webinarId := webinarId }] }
      w user with ⟨st2, oe⟩
  rw [hs] at herr
  cases oe with
  | none => simp at herr
  | some e2 =>
    have h2 : (sendEmailToOrganizer mailer
        { st with participations :=
            st.participations ++ [{ userId := user.id, webinarId := webinarId }] }
        w user).2 = some e2 := by rw [hs]
    have hcases := sendEmail_error_cases mailer _ w user e2 h2
    have : e2 = e := by simpa using herr
    rw [← this]
    exact hcases

/-- The notification step through the always-accepting fake mailer, when
the organizer resolves with a usable address, appends exactly the one
expected email. -/
lemma sendEmail_success_fake (st : SystemState) (w : Webinar) (u organizer : User)
    (horg : userFindById st w.organizerId = some organizer)
    (hemail : ¬ organizer.email = "") :
    sendEmailToOrganizer fakeMailerSend st w u =
      ({ st with emails := st.emails ++
          [{ toAddr := organizer.email, subject := "New participant",
             body := "New participant for webinar " ++ w.title ++ ": " ++ u.email }] },
        none) := by
  unfold sendEmailToOrganizer
  rw [horg]
  simp [hemail, fakeMailerSend]

/-- When every pre-persist validation passes but the organizer contact is
missing, `execute` raises the missing-contact error while the freshly
persisted registration stays in the store. -/
lemma execute_contact_missing (mailer : MailerPort) (st : SystemState) (now : Int)
    (webinarId : String) (user : User) (w : Webinar)
    (hfind : webinarFindById st webinarId = Except.ok w)
    (hdup : (findByWebinarId st webinarId).any (fun p => p.userId == user.id) = false)
    (hsoon : w.isTooSoon now = false)
    (hhigh : w.hasTooManySeats = false)
    (hlow : w.hasNotEnoughSeats = false)
    (hmiss : organizerContactMissing st w = true) :
    (execute mailer st now webinarId user).2 = Except.error BookError.emailNotFound ∧
    ({ userId := user.id, webinarId := webinarId } : Participation) ∈
      (execute mailer st now webinarId user).1.participations := by
  have hrun := execute_validated mailer st now webinarId user w hfind hdup hsoon hhigh hlow
  have hmiss1 : organizerContactMissing
      { st with participations :=
          st.participations ++ [{ userId := user.id, webinarId := webinarId }] }
      w = true := hmiss
  have hsend := sendEmail_contact_missing mailer
    { st with participations :=
        st.participations ++ [{ userId := user.id, webinarId := webinarId }] }
    w user hmiss1
  rw [hrun, hsend]
  exact ⟨rfl, by simp⟩

/-- C1: when the webinar exists, the user is not yet registered, the
webinar is not too soon, its capacity is within bounds and the organizer
resolves with a usable contact address, `execute` returns the success
response, exactly one registration for the (user id, webinar id) pair is
persisted (none existed before, exactly one exists after), and exactly one
notification is appended to the mail log, addressed to the organizer. -/
theorem C1_successful_booking (st : SystemState) (now : Int) (webinarId : String)
    (user organizer : User) (w : Webinar)
    (hfind : webinarFindById st webinarId = Except.ok w)
    (hdup : (findByWebinarId st webinarId).any (fun p => p.userId == user.id) = false)
    (hsoon : w.isTooSoon now = false)
    (hhigh : w.hasTooManySeats = false)
    (hlow : w.hasNotEnoughSeats = false)
    (horg : userFindById st w.organizerId = some organizer)
    (hemail : ¬ organizer.email = "") :
    (execute fakeMailerSend st now webinarId user).2 =
      Except.ok { success := true, message := "User registered successfully" } ∧
    countRegistrations st user.id webinarId = 0 ∧
    countRegistrations (execute fakeMailerSend st now webinarId user).1 user.id webinarId
      = 1 ∧
    (execute fakeMailerSend st now webinarId user).1.emails =
      st.emails ++
        [{ toAddr := organizer.email, subject := "New participant",
           body := "New participant for webinar " ++ w.title ++ ": " ++ user.email }] := by
  have hzero := count_zero_of_not_any st webinarId user hdup
  have hrun := execute_validated fakeMailerSend st now webinarId user w hfind hdup
    hsoon hhigh hlow
  have hsend : sendEmailToOrganizer fakeMailerSend
      { st with participations :=
          st.participations ++ [{ userId := user.id, webinarId := webinarId }] } w user =
      ({ st with
          participations :=
            st.participations ++ [{ userId := user.id, webinarId := webinarId }],
          emails := st.emails ++
            [{ toAddr := organizer.email, subject := "New participant",
               body := "New participant for webinar " ++ w.title ++ ": " ++ user.email }] },
        none) := by
    unfold sendEmailToOrganizer
    rw [show userFindById
        { st with participations :=
            st.participations ++ [{ userId := user.id, webinarId := webinarId }] }
        w.organizerId = some organizer from horg]
    simp [hemail, fakeMailerSend]
  rw [hrun, hsend]
  refine ⟨rfl, hzero, ?_, rfl⟩
  show countRegistrations
    { st with
        participations :=
          st.participations ++ [{ userId := user.id, webinarId := webinarId }],
        emails := st.emails ++
          [{ toAddr := organizer.email, subject := "New participant",
             body := "New participant for webinar " ++ w.title ++ ": " ++ user.email }] }
    user.id webinarId = 1
  unfold countRegistrations at hzero ⊢
  simp [List.filter_append, hzero]

/-- C2, as stated, is refuted here: in `ghostState` an existing
registration for webinar id "webinar1" carries the requesting user's id,
yet `execute` fails with the webinar-not-found error of the lookup, not
with the already-registered error. -/
theorem C2_counterexample :
    ((findByWebinarId ghostState "webinar1").any (fun p => p.userId == user1.id)
      = true) ∧
    (execute fakeMailerSend ghostState 0 "webinar1" user1).2 =
      Except.error BookError.webinarNotFound ∧
    ¬ (execute fakeMailerSend ghostState 0 "webinar1" user1).2 =
      Except.error BookError.userIsAlreadyRegistered := by
  refine ⟨rfl, rfl, ?_⟩
  intro h
  have h2 : (Except.error BookError.webinarNotFound : Except BookError Response) =
      Except.error BookError.userIsAlreadyRegistered := h
  simp at h2

/-- C2 (amended): when the webinar id resolves, any state in which an
existing registration for the webinar carries the requesting user's id
makes `execute` fail with the already-registered error and leaves the
state unchanged, so no second record is created. -/
theorem C2_already_registered (mailer : MailerPort) (st : SystemState) (now : Int)
    (webinarId : String) (user : User) (w : Webinar)
    (hfind : webinarFindById st webinarId = Except.ok w)
    (hdup : (findByWebinarId st webinarId).any (fun p => p.userId == user.id) = true) :
    execute mailer st now webinarId user =
      (st, Except.error BookError.userIsAlreadyRegistered) := by
  unfold execute
  rw [hfind]
  simp [hdup]

/-- C2 witness: with webinar1 present and user1 already registered, the
amended claim applies concretely. -/
theorem C2_already_registered_witness :
    webinarFindById dupState "webinar1" = Except.ok webinar1 ∧
    (findByWebinarId dupState "webinar1").any (fun p => p.userId == user1.id) = true ∧
    execute fakeMailerSend dupState 0 "webinar1" user1 =
      (dupState, Except.error BookError.userIsAlreadyRegistered) :=
  ⟨rfl, rfl,
    C2_already_registered fakeMailerSend dupState 0 "webinar1" user1 webinar1 rfl rfl⟩

/-- C8: when the webinar id does not resolve, `execute` propagates the
lookup's error unchanged and the state is untouched: no registration is
created and no notification sent. -/
theorem C8_not_found_propagates (mailer : MailerPort) (st : SystemState) (now : Int)
    (webinarId : String) (user : User) (e : BookError)
    (hfind : webinarFindById st webinarId = Except.error e) :
    execute mailer st now webinarId user = (st, Except.error e) := by
  unfold execute
  rw [hfind]

/-- C8 witness: the empty state resolves no webinar, and the booking
attempt returns the propagated not-found error with the state
unchanged. -/
theorem C8_not_found_propagates_witness :
    webinarFindById emptyState "webinar1" = Except.error BookError.webinarNotFound ∧
    execute fakeMailerSend emptyState 0 "webinar1" user1 =
      (emptyState, Except.error BookError.webinarNotFound) :=
  ⟨rfl, C8_not_found_propagates fakeMailerSend emptyState 0 "webinar1" user1
    BookError.webinarNotFound rfl⟩

/-- C1 witness: the happy-path test scenario, instantiated concretely. -/
theorem C1_successful_booking_witness :
    webinarFindById baseState "webinar1" = Except.ok webinar1 ∧
    (findByWebinarId baseState "webinar1").any (fun p => p.userId == user1.id) = false ∧
    ¬ organizer1.email = "" ∧
    (execute fakeMailerSend baseState 0 "webinar1" user1).2 =
      Except.ok { success := true, message := "User registered successfully" } ∧
    countRegistrations (execute fakeMailerSend baseState 0 "webinar1" user1).1
      user1.id "webinar1" = 1 ∧
    (execute fakeMailerSend baseState 0 "webinar1" user1).1.emails =
      [{ toAddr := "organizer@example.com", subject := "New participant",
         body := "New participant for webinar Webinar Test: user@example.com" }] := by
  have h := C1_successful_booking baseState 0 "webinar1" user1 organizer1 webinar1
    rfl rfl rfl rfl rfl rfl (by decide)
  refine ⟨rfl, rfl, by decide, h.1, h.2.2.1, ?_⟩
  rw [h.2.2.2]
  rfl

/-- C3: once the webinar is found and the duplicate, lead-time and
capacity checks pass, a missing organizer contact makes `execute` fail
with the missing-contact error while the persisted registration stays in
the store; and more generally any failure reported at that point (a
notifier rejection included) still leaves the registration committed. -/
theorem C3_no_rollback (mailer : MailerPort) (st : SystemState) (now : Int)
    (webinarId : String) (user : User) (w : Webinar)
    (hfind : webinarFindById st webinarId = Except.ok w)
    (hdup : (findByWebinarId st webinarId).any (fun p => p.userId == user.id) = false)
    (hsoon : w.isTooSoon now = false)
    (hhigh : w.hasTooManySeats = false)
    (hlow : w.hasNotEnoughSeats = false) :
    (organizerContactMissing st w = true →
      (execute mailer st now webinarId user).2 = Except.error BookError.emailNotFound ∧
      ({ userId := user.id, webinarId := webinarId } : Participation) ∈
        (execute mailer st now webinarId user).1.participations) ∧
    (∀ e, (execute mailer st now webinarId user).2 = Except.error e →
      ({ userId := user.id, webinarId := webinarId } : Participation) ∈
        (execute mailer st now webinarId user).1.participations) := by
  constructor
  · intro hmiss
    exact execute_contact_missing mailer st now webinarId user w hfind hdup hsoon
      hhigh hlow hmiss
  · intro e _
    have hrun := execute_validated mailer st now webinarId user w hfind hdup hsoon
      hhigh hlow
    rw [hrun]
    rcases hs : sendEmailToOrganizer mailer
        { st with participations :=
            st.participations ++ [{ userId := user.id, webinarId := webinarId }] }
        w user with ⟨st2, oe⟩
    have hparts : st2.participations =
        st.participations ++ [{ userId := user.id, webinarId := webinarId }] := by
      have hp := sendEmail_participations mailer
        { st with participations :=
            st.participations ++ [{ userId := user.id, webinarId := webinarId }] }
        w user
      rw [hs] at hp
      exact hp
    cases oe with
    | none => simp [hparts]
    | some e2 => simp [hparts]

/-- C3 witness: with the organizer absent the booking fails with the
missing-contact error yet the registration is stored; with the organizer
present but the notifier failing, the registration is also stored. -/
theorem C3_no_rollback_witness :
    organizerContactMissing noOrgState webinar1 = true ∧
    (execute fakeMailerSend noOrgState 0 "webinar1" user1).2 =
      Except.error BookError.emailNotFound ∧
    ({ userId := "user1", webinarId := "webinar1" } : Participation) ∈
      (execute fakeMailerSend noOrgState 0 "webinar1" user1).1.participations ∧
    (execute failingMailerSend baseState 0 "webinar1" user1).2 =
      Except.error BookError.mailerSendFailed ∧
    ({ userId := "user1", webinarId := "webinar1" } : Participation) ∈
      (execute failingMailerSend baseState 0 "webinar1" user1).1.participations := by
  have h1 := C3_no_rollback fakeMailerSend noOrgState 0 "webinar1" user1 webinar1
    rfl rfl rfl rfl rfl
  have h2 := C3_no_rollback failingMailerSend baseState 0 "webinar1" user1 webinar1
    rfl rfl rfl rfl rfl
  exact ⟨rfl, (h1.1 rfl).1, (h1.1 rfl).2, rfl,
    h2.2 BookError.mailerSendFailed rfl⟩

/-- C4: once the webinar is found and the duplicate check passes, the
booking fails with the lead-time error exactly when the gap between now
and the start time is strictly below 3 days (in milliseconds); at exactly
3 days the check passes and the lead-time error cannot be the outcome. -/
theorem C4_lead_time_boundary (mailer : MailerPort) (st : SystemState) (now : Int)
    (webinarId : String) (user : User) (w : Webinar)
    (hfind : webinarFindById st webinarId = Except.ok w)
    (hdup : (findByWebinarId st webinarId).any (fun p => p.userId == user.id) = false) :
    (execute mailer st now webinarId user).2 =
        Except.error BookError.webinarDatesTooSoon ↔
      w.startDate - now < 3 * 24 * 60 * 60 * 1000 := by
  constructor
  · intro herr
    by_contra hge
    have hsoon : w.isTooSoon now = false := by
      unfold Webinar.isTooSoon
      simpa using hge
    cases hhigh : w.hasTooManySeats with
    | true =>
      rw [execute_tooMany mailer st now webinarId user w hfind hdup hsoon hhigh] at herr
      simp at herr
    | false =>
      cases hlow : w.hasNotEnoughSeats with
      | true =>
        rw [execute_notEnough mailer st now webinarId user w hfind hdup hsoon hhigh
          hlow] at herr
        simp at herr
      | false =>
        have hcases := execute_error_after_checks mailer st now webinarId user w
          hfind hdup hsoon hhigh hlow BookError.webinarDatesTooSoon herr
        rcases hcases with h | h <;> exact absurd h (by decide)
  · intro hlt
    have hsoon : w.isTooSoon now = true := by
      unfold Webinar.isTooSoon
      simpa using hlt
    rw [execute_tooSoon mailer st now webinarId user w hfind hdup hsoon]

/-- C4 witness: starting 1 ms short of 3 days fails with the lead-time
error; starting at exactly 3 days can not produce that error. -/
theorem C4_lead_time_boundary_witness :
    (execute fakeMailerSend soonState 0 "webinar1" user1).2 =
      Except.error BookError.webinarDatesTooSoon ∧
    ¬ (execute fakeMailerSend boundaryState 0 "webinar1" user1).2 =
      Except.error BookError.webinarDatesTooSoon := by
  constructor
  · exact (C4_lead_time_boundary fakeMailerSend soonState 0 "webinar1" user1
      webinarSoon rfl rfl).2 (by decide)
  · intro h
    have hlt := (C4_lead_time_boundary fakeMailerSend boundaryState 0 "webinar1" user1
      webinarBoundary rfl rfl).1 h
    exact absurd hlt (by decide)

/-- C5: with the other validations passing (webinar found, no duplicate,
not too soon, organizer with usable contact), a capacity of 1000 or 1
lets the booking succeed, while 1001 fails with the too-many-seats error
and 0 fails with the not-enough-seats error. -/
theorem C5_capacity_boundary (st : SystemState) (now : Int) (webinarId : String)
    (user organizer : User) (w : Webinar)
    (hfind : webinarFindById st webinarId = Except.ok w)
    (hdup : (findByWebinarId st webinarId).any (fun p => p.userId == user.id) = false)
    (hsoon : w.isTooSoon now = false)
    (horg : userFindById st w.organizerId = some organizer)
    (hemail : ¬ organizer.email = "") :
    (w.seats = 1000 → (execute fakeMailerSend st now webinarId user).2 =
      Except.ok { success := true, message := "User registered successfully" }) ∧
    (w.seats = 1 → (execute fakeMailerSend st now webinarId user).2 =
      Except.ok { success := true, message := "User registered successfully" }) ∧
    (w.seats = 1001 → (execute fakeMailerSend st now webinarId user).2 =
      Except.error BookError.webinarTooManySeats) ∧
    (w.seats = 0 → (execute fakeMailerSend st now webinarId user).2 =
      Except.error BookError.webinarNotEnoughSeats) := by
  have hsuccess : w.hasTooManySeats = false → w.hasNotEnoughSeats = false →
      (execute fakeMailerSend st now webinarId user).2 =
        Except.ok { success := true, message := "User registered successfully" } := by
    intro hhigh hlow
    have hrun := execute_validated fakeMailerSend st now webinarId user w hfind hdup
      hsoon hhigh hlow
    have horg1 : userFindById
        { st with participations :=
            st.participations ++ [{ userId := user.id, webinarId := webinarId }] }
        w.organizerId = some organizer := horg
    have hsend := sendEmail_success_fake
      { st with participations :=
          st.participations ++ [{ userId := user.id, webinarId := webinarId }] }
      w user organizer horg1 hemail
    rw [hrun, hsend]
  refine ⟨?_, ?_, ?_, ?_⟩
  · intro hseats
    exact hsuccess (by unfold Webinar.hasTooManySeats; simp [hseats])
      (by unfold Webinar.hasNotEnoughSeats; simp [hseats])
  · intro hseats
    exact hsuccess (by unfold Webinar.hasTooManySeats; simp [hseats])
      (by unfold Webinar.hasNotEnoughSeats; simp [hseats])
  · intro hseats
    have hhigh : w.hasTooManySeats = true := by
      unfold Webinar.hasTooManySeats
      simp [hseats]
    rw [execute_tooMany fakeMailerSend st now webinarId user w hfind hdup hsoon hhigh]
  · intro hseats
    have hhigh : w.hasTooManySeats = false := by
      unfold Webinar.hasTooManySeats
      simp [hseats]
    have hlow : w.hasNotEnoughSeats = true := by
      unfold Webinar.hasNotEnoughSeats
      simp [hseats]
    rw [execute_notEnough fakeMailerSend st now webinarId user w hfind hdup hsoon
      hhigh hlow]

/-- C5 witness: the four boundary capacities, run on the concrete
happy-path state. -/
theorem C5_capacity_boundary_witness :
    (execute fakeMailerSend (stateWithSeats 1000) 0 "webinar1" user1).2 =
      Except.ok { success := true, message := "User registered successfully" } ∧
    (execute fakeMailerSend (stateWithSeats 1) 0 "webinar1" user1).2 =
      Except.ok { success := true, message := "User registered successfully" } ∧
    (execute fakeMailerSend (stateWithSeats 1001) 0 "webinar1" user1).2 =
      Except.error BookError.webinarTooManySeats ∧
    (execute fakeMailerSend (stateWithSeats 0) 0 "webinar1" user1).2 =
      Except.error BookError.webinarNotEnoughSeats := by
  refine ⟨?_, ?_, ?_, ?_⟩
  · exact (C5_capacity_boundary (stateWithSeats 1000) 0 "webinar1" user1 organizer1
      (webinarWithSeats 1000) rfl rfl rfl rfl (by decide)).1 rfl
  · exact (C5_capacity_boundary (stateWithSeats 1) 0 "webinar1" user1 organizer1
      (webinarWithSeats 1) rfl rfl rfl rfl (by decide)).2.1 rfl
  · exact (C5_capacity_boundary (stateWithSeats 1001) 0 "webinar1" user1 organizer1
      (webinarWithSeats 1001) rfl rfl rfl rfl (by decide)).2.2.1 rfl
  · exact (C5_capacity_boundary (stateWithSeats 0) 0 "webinar1" user1 organizer1
      (webinarWithSeats 0) rfl rfl rfl rfl (by decide)).2.2.2 rfl

/-- C6: once the webinar is found, the duplicate check fires first
whatever the later checks would say; with no duplicate, the lead-time
check fires next; then too-many-seats; then not-enough-seats; and no
webinar can trigger both capacity checks at once. -/
theorem C6_validation_order (mailer : MailerPort) (st : SystemState) (now : Int)
    (webinarId : String) (user : User) (w : Webinar)
    (hfind : webinarFindById st webinarId = Except.ok w) :
    ((findByWebinarId st webinarId).any (fun p => p.userId == user.id) = true →
      execute mailer st now webinarId user =
        (st, Except.error BookError.userIsAlreadyRegistered)) ∧
    ((findByWebinarId st webinarId).any (fun p => p.userId == user.id) = false →
      w.isTooSoon now = true →
      execute mailer st now webinarId user =
        (st, Except.error BookError.webinarDatesTooSoon)) ∧
    ((findByWebinarId st webinarId).any (fun p => p.userId == user.id) = false →
      w.isTooSoon now = false → w.hasTooManySeats = true →
      execute mailer st now webinarId user =
        (st, Except.error BookError.webinarTooManySeats)) ∧
    ((findByWebinarId st webinarId).any (fun p => p.userId == user.id) = false →
      w.isTooSoon now = false → w.hasTooManySeats = false →
      w.hasNotEnoughSeats = true →
      execute mailer st now webinarId user =
        (st, Except.error BookError.webinarNotEnoughSeats)) ∧
    (∀ v : Webinar, ¬ (v.hasTooManySeats = true ∧ v.hasNotEnoughSeats = true)) := by
  refine ⟨?_, ?_, ?_, ?_, ?_⟩
  · intro hdup
    exact execute_dup mailer st now webinarId user w hfind hdup
  · intro hdup hsoon
    exact execute_tooSoon mailer st now webinarId user w hfind hdup hsoon
  · intro hdup hsoon hhigh
    exact execute_tooMany mailer st now webinarId user w hfind hdup hsoon hhigh
  · intro hdup hsoon hhigh hlow
    exact execute_notEnough mailer st now webinarId user w hfind hdup hsoon hhigh hlow
  · intro v hboth
    have h1 : v.seats > 1000 := by
      have := hboth.1
      unfold Webinar.hasTooManySeats at this
      simpa using this
    have h2 : v.seats < 1 := by
      have := hboth.2
      unfold Webinar.hasNotEnoughSeats at this
      simpa using this
    omega

/-- C6 witness: a state violating the duplicate, lead-time and
too-many-seats rules at once fails with the duplicate error, the earliest
check in the order. -/
theorem C6_validation_order_witness :
    (findByWebinarId multiFaultState "webinar1").any (fun p => p.userId == user1.id)
      = true ∧
    multiFaultWebinar.isTooSoon 0 = true ∧
    multiFaultWebinar.hasTooManySeats = true ∧
    execute fakeMailerSend multiFaultState 0 "webinar1" user1 =
      (multiFaultState, Except.error BookError.userIsAlreadyRegistered) :=
  ⟨rfl, rfl, rfl,
    (C6_validation_order fakeMailerSend multiFaultState 0 "webinar1" user1
      multiFaultWebinar rfl).1 rfl⟩

/-- C7: overselling is possible: in `fullState` the single-seat webinar
already has one registration (count equals configured capacity), yet a
booking by a not-yet-registered user succeeds and a second registration
is persisted. -/
theorem C7_overselling :
    fullWebinar.seats = 1 ∧
    (findByWebinarId fullState "webinar1").length = 1 ∧
    (findByWebinarId fullState "webinar1").any (fun p => p.userId == user1.id)
      = false ∧
    (execute fakeMailerSend fullState 0 "webinar1" user1).2 =
      Except.ok { success := true, message := "User registered successfully" } ∧
    (findByWebinarId (execute fakeMailerSend fullState 0 "webinar1" user1).1
      "webinar1").length = 2 :=
  ⟨rfl, rfl, rfl, rfl, rfl⟩

/-- C9: after the pre-persist validations pass, an organizer id that
resolves to no user yields exactly the same missing-contact error as an
organizer with an empty address, and in both cases the registration has
already been persisted. -/
theorem C9_absent_organizer_same_error (mailer : MailerPort) (st : SystemState)
    (now : Int) (webinarId : String) (user organizer : User) (w : Webinar)
    (hfind : webinarFindById st webinarId = Except.ok w)
    (hdup : (findByWebinarId st webinarId).any (fun p => p.userId == user.id) = false)
    (hsoon : w.isTooSoon now = false)
    (hhigh : w.hasTooManySeats = false)
    (hlow : w.hasNotEnoughSeats = false) :
    (userFindById st w.organizerId = none →
      (execute mailer st now webinarId user).2 = Except.error BookError.emailNotFound ∧
      ({ userId := user.id, webinarId := webinarId } : Participation) ∈
        (execute mailer st now webinarId user).1.participations) ∧
    (userFindById st w.organizerId = some organizer → organizer.email = "" →
      (execute mailer st now webinarId user).2 = Except.error BookError.emailNotFound ∧
      ({ userId := user.id, webinarId := webinarId } : Participation) ∈
        (execute mailer st now webinarId user).1.participations) := by
  constructor
  · intro hnone
    have hmiss : organizerContactMissing st w = true := by
      unfold organizerContactMissing
      rw [hnone]
    exact execute_contact_missing mailer st now webinarId user w hfind hdup hsoon
      hhigh hlow hmiss
  · intro hsome he
    have hmiss : organizerContactMissing st w = true := by
      unfold organizerContactMissing
      rw [hsome]
      simp [he]
    exact execute_contact_missing mailer st now webinarId user w hfind hdup hsoon
      hhigh hlow hmiss

/-- C9 witness: an absent organizer and an organizer with an empty
address both produce the missing-contact error, with the registration
persisted. -/
theorem C9_absent_organizer_witness :
    userFindById noOrgState webinar1.organizerId = none ∧
    (execute fakeMailerSend noOrgState 0 "webinar1" user1).2 =
      Except.error BookError.emailNotFound ∧
    userFindById noEmailState webinar1.organizerId = some noEmailOrganizer ∧
    noEmailOrganizer.email = "" ∧
    (execute fakeMailerSend noEmailState 0 "webinar1" user1).2 =
      Except.error BookError.emailNotFound ∧
    ({ userId := "user1", webinarId := "webinar1" } : Participation) ∈
      (execute fakeMailerSend noEmailState 0 "webinar1" user1).1.participations := by
  have h1 := C9_absent_organizer_same_error fakeMailerSend noOrgState 0 "webinar1"
    user1 organizer1 webinar1 rfl rfl rfl rfl rfl
  have h2 := C9_absent_organizer_same_error fakeMailerSend noEmailState 0 "webinar1"
    user1 noEmailOrganizer webinar1 rfl rfl rfl rfl rfl
  exact ⟨rfl, (h1.1 rfl).1, rfl, rfl, (h2.2 rfl rfl).1, (h2.2 rfl rfl).2⟩

/-- C10: a failure with any of the five pre-persist errors (not-found,
already-registered, too-soon, too-many-seats, not-enough-seats) leaves
the whole state unchanged: no registration saved, no notification
sent. -/
theorem C10_pre_persist_failure (mailer : MailerPort) (st : SystemState) (now : Int)
    (webinarId : String) (user : User) (e : BookError)
    (herr : (execute mailer st now webinarId user).2 = Except.error e)
    (hkind : e = BookError.webinarNotFound ∨ e = BookError.userIsAlreadyRegistered ∨
      e = BookError.webinarDatesTooSoon ∨ e = BookError.webinarTooManySeats ∨
      e = BookError.webinarNotEnoughSeats) :
    execute mailer st now webinarId user = (st, Except.error e) := by
  rcases hw : webinarFindById st webinarId with e' | w
  · have hx := execute_notFound mailer st now webinarId user e' hw
    rw [hx] at herr
    have : e' = e := by simpa using herr
    rw [hx, this]
  · cases hdup : (findByWebinarId st webinarId).any (fun p => p.userId == user.id) with
    | true =>
      have hx := execute_dup mailer st now webinarId user w hw hdup
      rw [hx] at herr
      have : BookError.userIsAlreadyRegistered = e := by simpa using herr
      rw [hx, this]
    | false =>
      cases hsoon : w.isTooSoon now with
      | true =>
        have hx := execute_tooSoon mailer st now webinarId user w hw hdup hsoon
        rw [hx] at herr
        have : BookError.webinarDatesTooSoon = e := by simpa using herr
        rw [hx, this]
      | false =>
        cases hhigh : w.hasTooManySeats with
        | true =>
          have hx := execute_tooMany mailer st now webinarId user w hw hdup hsoon hhigh
          rw [hx] at herr
          have : BookError.webinarTooManySeats = e := by simpa using herr
          rw [hx, this]
        | false =>
          cases hlow : w.hasNotEnoughSeats with
          | true =>
            have hx := execute_notEnough mailer st now webinarId user w hw hdup hsoon
              hhigh hlow
            rw [hx] at herr
            have : BookError.webinarNotEnoughSeats = e := by simpa using herr
            rw [hx, this]
          | false =>
            have hcases := execute_error_after_checks mailer st now webinarId user w
              hw hdup hsoon hhigh hlow e herr
            rcases hkind with rfl | rfl | rfl | rfl | rfl <;>
              rcases hcases with h | h <;> exact absurd h (by decide)

/-- C10 witness: a too-soon failure on the concrete near-boundary state
leaves the state exactly as it was. -/
theorem C10_pre_persist_failure_witness :
    (execute fakeMailerSend soonState 0 "webinar1" user1).2 =
      Except.error BookError.webinarDatesTooSoon ∧
    execute fakeMailerSend soonState 0 "webinar1" user1 =
      (soonState, Except.error BookError.webinarDatesTooSoon) :=
  ⟨rfl, C10_pre_persist_failure fakeMailerSend soonState 0 "webinar1" user1
    BookError.webinarDatesTooSoon rfl (Or.inr (Or.inr (Or.inl rfl)))⟩

end BookSeatSpec
